import Mathlib

/-!
Verification of `src/tun/src/ffi.c` (Tinkerforge/esp32-remote-access).

The file embeds the two C functions shallowly:

* `strscpy_pad` — memory is modelled as a function `Nat → Nat` from byte
  offsets (relative to the destination pointer) to byte values; the source
  pointer is likewise a byte stream `Nat → Nat`.  The C copy loop
  `while (*dst != 0 && size != 0) { *dst = *src; src++; dst++; size--; }`
  is `copyLoop`.  The subsequent padding loop executes `dst = 0; dst++;
  size--;` — it assigns to the local pointer variable, never to the
  buffer, and likewise the final `dst = 0;` — so neither has any effect
  on memory or on the returned count (`written` is computed before the
  padding loop); they are modelled by `padLoop`, which provably leaves
  memory untouched, mirroring the source.

* `tun_alloc` — the kernel calls (`open`, `ioctl`, `socket`, `close`) are
  the only effects; their outcomes are supplied by a `KernelWorld` record
  (one signed result per call site) and the calls actually issued are
  recorded in order in an `Event` trace.  Control flow (each `< 0` test,
  each early `return`, which handles each failure branch closes and in
  which order) is transcribed branch by branch from the C.
-/

/-- IFF_TUN from linux/if_tun.h. -/
def IFF_TUN : Nat := 0x0001

/-- IFF_NO_PI from linux/if_tun.h. -/
def IFF_NO_PI : Nat := 0x1000

/-- IFNAMSIZ from linux/if.h. -/
def IFNAMSIZ : Nat := 16

/-- The copy loop of `strscpy_pad`:
`while (*dst != 0 && size != 0) { *dst = *src; src++; dst++; size--; }`.
`mem` is the byte memory addressed relative to the original `dst`
pointer, `k` the current offset of both running pointers, `size` the
remaining count.  Returns the memory after the loop and the value of
`size` at loop exit.  Note the guard reads `mem k` before offset `k` is
written, i.e. it always sees the original destination byte. -/
def copyLoop (mem src : Nat → Nat) (k : Nat) : Nat → (Nat → Nat) × Nat
  | 0 => (mem, 0)
  | size + 1 =>
    if mem k = 0 then (mem, size + 1)
    else copyLoop (Function.update mem k (src k)) src (k + 1) size

/-- The padding loop of `strscpy_pad`:
`while (size != 0) { dst = 0; dst++; size--; }` followed by `dst = 0;`.
Both assignments write the local pointer variable `dst`, not the byte
`*dst`, so memory is returned unchanged; the function returns the final
(meaningless) pointer value together with the memory. -/
def padLoop (mem : Nat → Nat) : Nat → (Nat → Nat) × Nat
  | 0 => (mem, 0)
  | size + 1 => padLoop mem size

/-- `int strscpy_pad(char *dst, const char *src, int size)` transcribed.
Returns the memory after the call and the returned count `written`. -/
def strscpy_pad (mem src : Nat → Nat) (size : Nat) : (Nat → Nat) × Nat :=
  let c := copyLoop mem src 0 size
  let written := size - c.2
  let p := padLoop c.1 c.2
  (p.1, written)

/-- Length of the leading run of non-zero original destination bytes
starting at offset `k`, capped at the remaining size (the number of
iterations the copy loop performs). -/
def nzRun (mem : Nat → Nat) (k : Nat) : Nat → Nat
  | 0 => 0
  | size + 1 => if mem k = 0 then 0 else nzRun mem (k + 1) size + 1

/-- The contract of §4.1 of the spec, modelled from the spec words (for
comparison with the code): copy the source bytes (the source given as a
list, shorter than the capacity), zero-fill the remaining capacity, and
return the number of bytes copied excluding padding. -/
def strscpy_padSpec (src : List Nat) (size : Nat) : List Nat × Nat :=
  (src ++ List.replicate (size - src.length) 0, src.length)

section TunAlloc

/-- Outcomes of the kernel calls `tun_alloc` can issue, one signed
result per call site, in program order.  (`openRes` is the fd returned
by `open`, `socketRes` the fd returned by `socket`; the ioctl results
are the values bound to `err` in the C.) -/
structure KernelWorld where
  openRes : Int
  tunsetiffRes : Int
  socketRes : Int
  setAddrRes : Int
  setDstAddrRes : Int
  getFlagsRes : Int
  getFlagsValue : Nat
  setFlagsRes : Int
  addRouteRes : Int

/-- A kernel operation issued by `tun_alloc`, recorded in order.  The
`tunsetiff` event carries the `ifr_flags` and `ifr_name` fields of the
`struct ifreq` submitted with the TUNSETIFF request (`name` is the
16-byte array as a byte function). -/
inductive Event where
  | openDev : Event
  | tunsetiff (fd : Int) (flags : Nat) (name : Nat → Nat) : Event
  | socketCall : Event
  | setAddr (s : Int) : Event
  | setDstAddr (s : Int) : Event
  | getFlags (s : Int) : Event
  | setFlags (s : Int) (flags : Nat) : Event
  | addRoute (s : Int) : Event
  | closeFd (h : Int) : Event

/-- Operation tags, for stating ordering properties decidably. -/
inductive Tag where
  | openDev | tunsetiff | socketCall | setAddr | setDstAddr
  | getFlags | setFlags | addRoute | closeOp
  deriving DecidableEq, Repr

/-- The tag of an event. -/
def Event.tag : Event → Tag
  | .openDev => .openDev
  | .tunsetiff _ _ _ => .tunsetiff
  | .socketCall => .socketCall
  | .setAddr _ => .setAddr
  | .setDstAddr _ => .setDstAddr
  | .getFlags _ => .getFlags
  | .setFlags _ _ => .setFlags
  | .addRoute _ => .addRoute
  | .closeFd _ => .closeOp

/-- The `ifr_name` array at the time of the TUNSETIFF request:
`memset(&ifr, 0, sizeof(ifr))` zeroes it, then
`if (*dev) strscpy_pad(ifr.ifr_name, dev, IFNAMSIZ);` runs the copier
over the zeroed bytes when the caller requested a name. -/
def ifrNameOf (dev : Nat → Nat) : Nat → Nat :=
  if dev 0 ≠ 0 then (strscpy_pad (fun _ => 0) dev IFNAMSIZ).1 else fun _ => 0

/-- `int tun_alloc(char *dev, const char *self_ip, const char *peer_ip)`
transcribed.  `dev` is the caller's name buffer as a byte stream; the
IP strings play no role in the control flow (`inet_addr` never fails
into an error branch) and are not needed.  Returns the C return value
and the ordered trace of kernel operations issued. -/
def tun_alloc (w : KernelWorld) (dev : Nat → Nat) : Int × List Event :=
  let fd := w.openRes
  if fd < 0 then
    (-1, [Event.openDev])
  else
    -- ifr.ifr_flags = IFF_TUN;
    let ifrFlags : Nat := IFF_TUN
    let t1 := [Event.openDev, Event.tunsetiff fd ifrFlags (ifrNameOf dev)]
    if w.tunsetiffRes < 0 then
      (w.tunsetiffRes, t1 ++ [Event.closeFd fd])
    else
      -- strcpy(dev, ifr.ifr_name): writes the kernel-assigned name back
      -- into the caller's buffer; not observable in the trace.
      let s := w.socketRes
      let t2 := t1 ++ [Event.socketCall]
      if s < 0 then
        (s, t2 ++ [Event.closeFd fd])
      else
        let t3 := t2 ++ [Event.setAddr s]
        if w.setAddrRes < 0 then
          (w.setAddrRes, t3 ++ [Event.closeFd fd, Event.closeFd s])
        else
          let t4 := t3 ++ [Event.setDstAddr s]
          if w.setDstAddrRes < 0 then
            (w.setDstAddrRes, t4 ++ [Event.closeFd fd, Event.closeFd s])
          else
            let t5 := t4 ++ [Event.getFlags s]
            if w.getFlagsRes < 0 then
              (w.getFlagsRes, t5 ++ [Event.closeFd fd, Event.closeFd s])
            else
              -- ifr.ifr_flags |= IFF_UP | IFF_RUNNING;
              let upFlags := w.getFlagsValue ||| (0x1 ||| 0x40)
              let t6 := t5 ++ [Event.setFlags s upFlags]
              if w.setFlagsRes < 0 then
                (w.setFlagsRes, t6 ++ [Event.closeFd fd, Event.closeFd s])
              else
                let t7 := t6 ++ [Event.addRoute s]
                if w.addRouteRes < 0 then
                  (w.addRouteRes, t7 ++ [Event.closeFd s, Event.closeFd fd])
                else
                  (fd, t7 ++ [Event.closeFd s])

/-- The handles closed by a trace, in order. -/
def closesOf (t : List Event) : List Int :=
  t.filterMap fun e => match e with
    | .closeFd h => some h
    | _ => none

/-- The non-close kernel operations of a trace, in order, as tags. -/
def opsOf (t : List Event) : List Tag :=
  (t.map Event.tag).filter (fun g => g ≠ Tag.closeOp)

/-- The `ifr_flags` field submitted with the TUNSETIFF request, if one
was issued. -/
def tunFlagsOf (t : List Event) : Option Nat :=
  t.findSome? fun e => match e with
    | .tunsetiff _ f _ => some f
    | _ => none

/-- The `ifr_name` field submitted with the TUNSETIFF request, if one
was issued. -/
def tunNameOf (t : List Event) : Option (Nat → Nat) :=
  t.findSome? fun e => match e with
    | .tunsetiff _ _ n => some n
    | _ => none

/-- The canonical linear order of kernel operations (§4.2 steps 1–9,
step 3 being a pure read of the structure, not a kernel call). -/
def canonicalOps : List Tag :=
  [Tag.openDev, Tag.tunsetiff, Tag.socketCall, Tag.setAddr,
   Tag.setDstAddr, Tag.getFlags, Tag.setFlags, Tag.addRoute]

/-- The per-call results in program order. -/
def KernelWorld.results (w : KernelWorld) : List Int :=
  [w.openRes, w.tunsetiffRes, w.socketRes, w.setAddrRes,
   w.setDstAddrRes, w.getFlagsRes, w.setFlagsRes, w.addRouteRes]

/-- Number of leading kernel calls that succeed (result `≥ 0`); 8 when
every call succeeds, otherwise the index of the first failing call. -/
def KernelWorld.numOk (w : KernelWorld) : Nat :=
  (w.results.takeWhile (fun r => 0 ≤ r)).length

end TunAlloc

/-! ### Equation lemmas: `tun_alloc` on each of its nine paths -/

/-- Path: `open` fails. -/
theorem tun_alloc_eq0 (w : KernelWorld) (dev : Nat → Nat)
    (h0 : w.openRes < 0) :
    tun_alloc w dev = (-1, [Event.openDev]) := by
  simp only [tun_alloc]
  rw [if_pos h0]

/-- Path: TUNSETIFF fails. -/
theorem tun_alloc_eq1 (w : KernelWorld) (dev : Nat → Nat)
    (h0 : 0 ≤ w.openRes) (h1 : w.tunsetiffRes < 0) :
    tun_alloc w dev = (w.tunsetiffRes,
      [Event.openDev, Event.tunsetiff w.openRes IFF_TUN (ifrNameOf dev),
       Event.closeFd w.openRes]) := by
  simp only [tun_alloc]
  rw [if_neg (not_lt.mpr h0), if_pos h1]
  rfl

/-- Path: `socket` fails. -/
theorem tun_alloc_eq2 (w : KernelWorld) (dev : Nat → Nat)
    (h0 : 0 ≤ w.openRes) (h1 : 0 ≤ w.tunsetiffRes) (h2 : w.socketRes < 0) :
    tun_alloc w dev = (w.socketRes,
      [Event.openDev, Event.tunsetiff w.openRes IFF_TUN (ifrNameOf dev),
       Event.socketCall, Event.closeFd w.openRes]) := by
  simp only [tun_alloc]
  rw [if_neg (not_lt.mpr h0), if_neg (not_lt.mpr h1), if_pos h2]
  rfl

/-- Path: SIOCSIFADDR fails. -/
theorem tun_alloc_eq3 (w : KernelWorld) (dev : Nat → Nat)
    (h0 : 0 ≤ w.openRes) (h1 : 0 ≤ w.tunsetiffRes) (h2 : 0 ≤ w.socketRes)
    (h3 : w.setAddrRes < 0) :
    tun_alloc w dev = (w.setAddrRes,
      [Event.openDev, Event.tunsetiff w.openRes IFF_TUN (ifrNameOf dev),
       Event.socketCall, Event.setAddr w.socketRes,
       Event.closeFd w.openRes, Event.closeFd w.socketRes]) := by
  simp only [tun_alloc]
  rw [if_neg (not_lt.mpr h0), if_neg (not_lt.mpr h1), if_neg (not_lt.mpr h2),
    if_pos h3]
  rfl

/-- Path: SIOCSIFDSTADDR fails. -/
theorem tun_alloc_eq4 (w : KernelWorld) (dev : Nat → Nat)
    (h0 : 0 ≤ w.openRes) (h1 : 0 ≤ w.tunsetiffRes) (h2 : 0 ≤ w.socketRes)
    (h3 : 0 ≤ w.setAddrRes) (h4 : w.setDstAddrRes < 0) :
    tun_alloc w dev = (w.setDstAddrRes,
      [Event.openDev, Event.tunsetiff w.openRes IFF_TUN (ifrNameOf dev),
       Event.socketCall, Event.setAddr w.socketRes,
       Event.setDstAddr w.socketRes,
       Event.closeFd w.openRes, Event.closeFd w.socketRes]) := by
  simp only [tun_alloc]
  rw [if_neg (not_lt.mpr h0), if_neg (not_lt.mpr h1), if_neg (not_lt.mpr h2),
    if_neg (not_lt.mpr h3), if_pos h4]
  rfl

/-- Path: SIOCGIFFLAGS fails. -/
theorem tun_alloc_eq5 (w : KernelWorld) (dev : Nat → Nat)
    (h0 : 0 ≤ w.openRes) (h1 : 0 ≤ w.tunsetiffRes) (h2 : 0 ≤ w.socketRes)
    (h3 : 0 ≤ w.setAddrRes) (h4 : 0 ≤ w.setDstAddrRes)
    (h5 : w.getFlagsRes < 0) :
    tun_alloc w dev = (w.getFlagsRes,
      [Event.openDev, Event.tunsetiff w.openRes IFF_TUN (ifrNameOf dev),
       Event.socketCall, Event.setAddr w.socketRes,
       Event.setDstAddr w.socketRes, Event.getFlags w.socketRes,
       Event.closeFd w.openRes, Event.closeFd w.socketRes]) := by
  simp only [tun_alloc]
  rw [if_neg (not_lt.mpr h0), if_neg (not_lt.mpr h1), if_neg (not_lt.mpr h2),
    if_neg (not_lt.mpr h3), if_neg (not_lt.mpr h4), if_pos h5]
  rfl

/-- Path: SIOCSIFFLAGS fails. -/
theorem tun_alloc_eq6 (w : KernelWorld) (dev : Nat → Nat)
    (h0 : 0 ≤ w.openRes) (h1 : 0 ≤ w.tunsetiffRes) (h2 : 0 ≤ w.socketRes)
    (h3 : 0 ≤ w.setAddrRes) (h4 : 0 ≤ w.setDstAddrRes)
    (h5 : 0 ≤ w.getFlagsRes) (h6 : w.setFlagsRes < 0) :
    tun_alloc w dev = (w.setFlagsRes,
      [Event.openDev, Event.tunsetiff w.openRes IFF_TUN (ifrNameOf dev),
       Event.socketCall, Event.setAddr w.socketRes,
       Event.setDstAddr w.socketRes, Event.getFlags w.socketRes,
       Event.setFlags w.socketRes (w.getFlagsValue ||| (0x1 ||| 0x40)),
       Event.closeFd w.openRes, Event.closeFd w.socketRes]) := by
  simp only [tun_alloc]
  rw [if_neg (not_lt.mpr h0), if_neg (not_lt.mpr h1), if_neg (not_lt.mpr h2),
    if_neg (not_lt.mpr h3), if_neg (not_lt.mpr h4), if_neg (not_lt.mpr h5),
    if_pos h6]
  rfl

/-- Path: SIOCADDRT fails (the only branch closing the socket first). -/
theorem tun_alloc_eq7 (w : KernelWorld) (dev : Nat → Nat)
    (h0 : 0 ≤ w.openRes) (h1 : 0 ≤ w.tunsetiffRes) (h2 : 0 ≤ w.socketRes)
    (h3 : 0 ≤ w.setAddrRes) (h4 : 0 ≤ w.setDstAddrRes)
    (h5 : 0 ≤ w.getFlagsRes) (h6 : 0 ≤ w.setFlagsRes)
    (h7 : w.addRouteRes < 0) :
    tun_alloc w dev = (w.addRouteRes,
      [Event.openDev, Event.tunsetiff w.openRes IFF_TUN (ifrNameOf dev),
       Event.socketCall, Event.setAddr w.socketRes,
       Event.setDstAddr w.socketRes, Event.getFlags w.socketRes,
       Event.setFlags w.socketRes (w.getFlagsValue ||| (0x1 ||| 0x40)),
       Event.addRoute w.socketRes,
       Event.closeFd w.socketRes, Event.closeFd w.openRes]) := by
  simp only [tun_alloc]
  rw [if_neg (not_lt.mpr h0), if_neg (not_lt.mpr h1), if_neg (not_lt.mpr h2),
    if_neg (not_lt.mpr h3), if_neg (not_lt.mpr h4), if_neg (not_lt.mpr h5),
    if_neg (not_lt.mpr h6), if_pos h7]
  rfl

/-- Path: every call succeeds. -/
theorem tun_alloc_eq8 (w : KernelWorld) (dev : Nat → Nat)
    (h0 : 0 ≤ w.openRes) (h1 : 0 ≤ w.tunsetiffRes) (h2 : 0 ≤ w.socketRes)
    (h3 : 0 ≤ w.setAddrRes) (h4 : 0 ≤ w.setDstAddrRes)
    (h5 : 0 ≤ w.getFlagsRes) (h6 : 0 ≤ w.setFlagsRes)
    (h7 : 0 ≤ w.addRouteRes) :
    tun_alloc w dev = (w.openRes,
      [Event.openDev, Event.tunsetiff w.openRes IFF_TUN (ifrNameOf dev),
       Event.socketCall, Event.setAddr w.socketRes,
       Event.setDstAddr w.socketRes, Event.getFlags w.socketRes,
       Event.setFlags w.socketRes (w.getFlagsValue ||| (0x1 ||| 0x40)),
       Event.addRoute w.socketRes, Event.closeFd w.socketRes]) := by
  simp only [tun_alloc]
  rw [if_neg (not_lt.mpr h0), if_neg (not_lt.mpr h1), if_neg (not_lt.mpr h2),
    if_neg (not_lt.mpr h3), if_neg (not_lt.mpr h4), if_neg (not_lt.mpr h5),
    if_neg (not_lt.mpr h6), if_neg (not_lt.mpr h7)]
  rfl

/-! ### Characterization of `strscpy_pad` -/

/-- The padding loop never touches memory: both of its assignments (and
the final one after it) write the local pointer variable. -/
theorem padLoop_fst (mem : Nat → Nat) : ∀ n, (padLoop mem n).1 = mem
  | 0 => rfl
  | n + 1 => padLoop_fst mem n

/-- The copy loop performs at most `size` iterations. -/
theorem nzRun_le (mem : Nat → Nat) : ∀ n k, nzRun mem k n ≤ n := by
  intro n
  induction n with
  | zero => intro k; simp [nzRun]
  | succ m ih =>
    intro k
    simp only [nzRun]
    split
    · omega
    · have := ih (k + 1)
      omega

/-- `nzRun` only looks at the bytes in `[k, k + n)`. -/
theorem nzRun_congr (m1 m2 : Nat → Nat) :
    ∀ n k, (∀ j, k ≤ j → j < k + n → m1 j = m2 j) →
    nzRun m1 k n = nzRun m2 k n := by
  intro n
  induction n with
  | zero => intro k _; simp [nzRun]
  | succ m ih =>
    intro k hag
    have hk : m1 k = m2 k := hag k (Nat.le_refl k) (by omega)
    simp only [nzRun, hk]
    split
    · rfl
    · have : nzRun m1 (k + 1) m = nzRun m2 (k + 1) m := by
        refine ih (k + 1) ?_
        intro j hj1 hj2
        exact hag j (by omega) (by omega)
      omega

/-- Pointwise effect of the copy loop: offsets inside the non-zero run
of the original destination receive the corresponding source byte,
everything else is untouched. -/
theorem copyLoop_fst (src : Nat → Nat) :
    ∀ n mem k i, (copyLoop mem src k n).1 i =
      if k ≤ i ∧ i < k + nzRun mem k n then src i else mem i := by
  intro n
  induction n with
  | zero =>
    intro mem k i
    simp only [copyLoop, nzRun]
    split
    · omega
    · rfl
  | succ m ih =>
    intro mem k i
    by_cases hm : mem k = 0
    · rw [show copyLoop mem src k (m + 1) = (mem, m + 1) by
        simp [copyLoop, hm]]
      rw [show nzRun mem k (m + 1) = 0 by simp [nzRun, hm]]
      rw [if_neg (by omega)]
    · have hrun : nzRun mem k (m + 1) = nzRun mem (k + 1) m + 1 := by
        simp [nzRun, hm]
      have hcongr : nzRun (Function.update mem k (src k)) (k + 1) m =
          nzRun mem (k + 1) m := by
        refine nzRun_congr _ _ m (k + 1) ?_
        intro j hj1 _
        exact Function.update_noteq (by omega) _ _
      rw [show copyLoop mem src k (m + 1) =
          copyLoop (Function.update mem k (src k)) src (k + 1) m by
        simp [copyLoop, hm]]
      rw [ih, hcongr, hrun]
      by_cases hik : i = k
      · subst hik
        rw [if_neg (by omega), if_pos (by omega), Function.update_same]
      · rw [Function.update_noteq hik]
        by_cases hcond : k + 1 ≤ i ∧ i < k + 1 + nzRun mem (k + 1) m
        · rw [if_pos hcond, if_pos (by omega)]
        · rw [if_neg hcond, if_neg (by omega)]

/-- The `size` remaining at copy-loop exit. -/
theorem copyLoop_snd (src : Nat → Nat) :
    ∀ n mem k, (copyLoop mem src k n).2 = n - nzRun mem k n := by
  intro n
  induction n with
  | zero => intro mem k; simp [copyLoop, nzRun]
  | succ m ih =>
    intro mem k
    by_cases hm : mem k = 0
    · simp [copyLoop, nzRun, hm]
    · have hcongr : nzRun (Function.update mem k (src k)) (k + 1) m =
          nzRun mem (k + 1) m := by
        refine nzRun_congr _ _ m (k + 1) ?_
        intro j hj1 _
        exact Function.update_noteq (by omega) _ _
      rw [show copyLoop mem src k (m + 1) =
          copyLoop (Function.update mem k (src k)) src (k + 1) m by
        simp [copyLoop, hm]]
      rw [show nzRun mem k (m + 1) = nzRun mem (k + 1) m + 1 by
        simp [nzRun, hm]]
      rw [ih, hcongr]
      omega

/-- Pointwise effect of `strscpy_pad` on the destination memory. -/
theorem strscpy_pad_fst (mem src : Nat → Nat) (size i : Nat) :
    (strscpy_pad mem src size).1 i =
      if i < nzRun mem 0 size then src i else mem i := by
  simp only [strscpy_pad, padLoop_fst]
  rw [copyLoop_fst]
  by_cases h : i < nzRun mem 0 size
  · rw [if_pos (by omega), if_pos h]
  · rw [if_neg (by omega), if_neg h]

/-- The value `strscpy_pad` returns is the length of the leading
non-zero run of the original destination (capped at `size`). -/
theorem strscpy_pad_snd (mem src : Nat → Nat) (size : Nat) :
    (strscpy_pad mem src size).2 = nzRun mem 0 size := by
  have hle := nzRun_le mem size 0
  simp only [strscpy_pad]
  rw [copyLoop_snd]
  omega

/-! ### Helper lemmas for the claims -/

/-- Once `open` succeeds, the trace starts with the open and the
TUNSETIFF request carrying `IFF_TUN` and the `ifr_name` bytes. -/
theorem tun_alloc_trace_head (w : KernelWorld) (dev : Nat → Nat)
    (h : 0 ≤ w.openRes) :
    ∃ rest, (tun_alloc w dev).2 =
      Event.openDev ::
      Event.tunsetiff w.openRes IFF_TUN (ifrNameOf dev) :: rest := by
  simp only [tun_alloc]
  rw [if_neg (not_lt.mpr h)]
  repeat' split
  all_goals exact ⟨_, rfl⟩

/-- `numOk` when `open` fails. -/
theorem numOk0 (w : KernelWorld) (h0 : w.openRes < 0) : w.numOk = 0 := by
  have f0 : ¬ (0 ≤ w.openRes) := not_le.mpr h0
  simp [KernelWorld.numOk, KernelWorld.results, List.takeWhile_cons, f0]

/-- `numOk` when TUNSETIFF fails first. -/
theorem numOk1 (w : KernelWorld) (h0 : 0 ≤ w.openRes)
    (h1 : w.tunsetiffRes < 0) : w.numOk = 1 := by
  have f1 : ¬ (0 ≤ w.tunsetiffRes) := not_le.mpr h1
  simp [KernelWorld.numOk, KernelWorld.results, List.takeWhile_cons, h0, f1]

/-- `numOk` when `socket` fails first. -/
theorem numOk2 (w : KernelWorld) (h0 : 0 ≤ w.openRes)
    (h1 : 0 ≤ w.tunsetiffRes) (h2 : w.socketRes < 0) : w.numOk = 2 := by
  have f2 : ¬ (0 ≤ w.socketRes) := not_le.mpr h2
  simp [KernelWorld.numOk, KernelWorld.results, List.takeWhile_cons,
    h0, h1, f2]

/-- `numOk` when SIOCSIFADDR fails first. -/
theorem numOk3 (w : KernelWorld) (h0 : 0 ≤ w.openRes)
    (h1 : 0 ≤ w.tunsetiffRes) (h2 : 0 ≤ w.socketRes)
    (h3 : w.setAddrRes < 0) : w.numOk = 3 := by
  have f3 : ¬ (0 ≤ w.setAddrRes) := not_le.mpr h3
  simp [KernelWorld.numOk, KernelWorld.results, List.takeWhile_cons,
    h0, h1, h2, f3]

/-- `numOk` when SIOCSIFDSTADDR fails first. -/
theorem numOk4 (w : KernelWorld) (h0 : 0 ≤ w.openRes)
    (h1 : 0 ≤ w.tunsetiffRes) (h2 : 0 ≤ w.socketRes)
    (h3 : 0 ≤ w.setAddrRes) (h4 : w.setDstAddrRes < 0) : w.numOk = 4 := by
  have f4 : ¬ (0 ≤ w.setDstAddrRes) := not_le.mpr h4
  simp [KernelWorld.numOk, KernelWorld.results, List.takeWhile_cons,
    h0, h1, h2, h3, f4]

/-- `numOk` when SIOCGIFFLAGS fails first. -/
theorem numOk5 (w : KernelWorld) (h0 : 0 ≤ w.openRes)
    (h1 : 0 ≤ w.tunsetiffRes) (h2 : 0 ≤ w.socketRes)
    (h3 : 0 ≤ w.setAddrRes) (h4 : 0 ≤ w.setDstAddrRes)
    (h5 : w.getFlagsRes < 0) : w.numOk = 5 := by
  have f5 : ¬ (0 ≤ w.getFlagsRes) := not_le.mpr h5
  simp [KernelWorld.numOk, KernelWorld.results, List.takeWhile_cons,
    h0, h1, h2, h3, h4, f5]

/-- `numOk` when SIOCSIFFLAGS fails first. -/
theorem numOk6 (w : KernelWorld) (h0 : 0 ≤ w.openRes)
    (h1 : 0 ≤ w.tunsetiffRes) (h2 : 0 ≤ w.socketRes)
    (h3 : 0 ≤ w.setAddrRes) (h4 : 0 ≤ w.setDstAddrRes)
    (h5 : 0 ≤ w.getFlagsRes) (h6 : w.setFlagsRes < 0) : w.numOk = 6 := by
  have f6 : ¬ (0 ≤ w.setFlagsRes) := not_le.mpr h6
  simp [KernelWorld.numOk, KernelWorld.results, List.takeWhile_cons,
    h0, h1, h2, h3, h4, h5, f6]

/-- `numOk` when SIOCADDRT fails first. -/
theorem numOk7 (w : KernelWorld) (h0 : 0 ≤ w.openRes)
    (h1 : 0 ≤ w.tunsetiffRes) (h2 : 0 ≤ w.socketRes)
    (h3 : 0 ≤ w.setAddrRes) (h4 : 0 ≤ w.setDstAddrRes)
    (h5 : 0 ≤ w.getFlagsRes) (h6 : 0 ≤ w.setFlagsRes)
    (h7 : w.addRouteRes < 0) : w.numOk = 7 := by
  have f7 : ¬ (0 ≤ w.addRouteRes) := not_le.mpr h7
  simp [KernelWorld.numOk, KernelWorld.results, List.takeWhile_cons,
    h0, h1, h2, h3, h4, h5, h6, f7]

/-- `numOk` when every call succeeds. -/
theorem numOk8 (w : KernelWorld) (h0 : 0 ≤ w.openRes)
    (h1 : 0 ≤ w.tunsetiffRes) (h2 : 0 ≤ w.socketRes)
    (h3 : 0 ≤ w.setAddrRes) (h4 : 0 ≤ w.setDstAddrRes)
    (h5 : 0 ≤ w.getFlagsRes) (h6 : 0 ≤ w.setFlagsRes)
    (h7 : 0 ≤ w.addRouteRes) : w.numOk = 8 := by
  simp [KernelWorld.numOk, KernelWorld.results, List.takeWhile_cons,
    h0, h1, h2, h3, h4, h5, h6, h7]

/-- The copy-loop iteration count is exactly the length of the leading
run of non-zero original bytes: every offset inside it is non-zero, and
the byte just after it (when the cap was not hit) is zero. -/
theorem nzRun_spec (mem : Nat → Nat) :
    ∀ n k, (∀ j, j < nzRun mem k n → mem (k + j) ≠ 0) ∧
      (nzRun mem k n < n → mem (k + nzRun mem k n) = 0) := by
  intro n
  induction n with
  | zero => intro k; constructor
             <;> intro j
             <;> simp [nzRun] at *
  | succ m ih =>
    intro k
    by_cases hm : mem k = 0
    · rw [show nzRun mem k (m + 1) = 0 by simp [nzRun, hm]]
      constructor
      · intro j hj; omega
      · intro _; simpa using hm
    · rw [show nzRun mem k (m + 1) = nzRun mem (k + 1) m + 1 by
        simp [nzRun, hm]]
      obtain ⟨ihz, ihend⟩ := ih (k + 1)
      constructor
      · intro j hj
        match j with
        | 0 => simpa using hm
        | j0 + 1 =>
          have := ihz j0 (by omega)
          have harith : k + (j0 + 1) = k + 1 + j0 := by omega
          rw [harith]
          exact this
      · intro hlt
        have := ihend (by omega)
        have harith : k + (nzRun mem (k + 1) m + 1) = k + 1 + nzRun mem (k + 1) m := by
          omega
        rw [harith]
        exact this

/-! ### The claims -/

/-- Claim C1: whenever a step after OPEN_DEVICE fails (TUNSETIFF,
socket creation, SIOCSIFADDR, SIOCSIFDSTADDR, SIOCGIFFLAGS,
SIOCSIFFLAGS or SIOCADDRT), `tun_alloc` returns a negative value and,
before returning, closes the device file descriptor and — if it was
opened — the control socket: no handle remains open on any failure
path. -/
theorem tun_alloc_no_leak_on_failure (w : KernelWorld) (dev : Nat → Nat)
    (h0 : 0 ≤ w.openRes)
    (hf : ¬ (0 ≤ w.tunsetiffRes ∧ 0 ≤ w.socketRes ∧ 0 ≤ w.setAddrRes ∧
      0 ≤ w.setDstAddrRes ∧ 0 ≤ w.getFlagsRes ∧ 0 ≤ w.setFlagsRes ∧
      0 ≤ w.addRouteRes)) :
    (tun_alloc w dev).1 < 0 ∧
    w.openRes ∈ closesOf (tun_alloc w dev).2 ∧
    (0 ≤ w.tunsetiffRes → 0 ≤ w.socketRes →
      w.socketRes ∈ closesOf (tun_alloc w dev).2) := by
  by_cases h1 : w.tunsetiffRes < 0
  · rw [tun_alloc_eq1 w dev h0 h1]
    exact ⟨h1, by simp [closesOf], fun ha _ => absurd ha (not_le.mpr h1)⟩
  have h1a : 0 ≤ w.tunsetiffRes := not_lt.mp h1
  by_cases h2 : w.socketRes < 0
  · rw [tun_alloc_eq2 w dev h0 h1a h2]
    exact ⟨h2, by simp [closesOf], fun _ hb => absurd hb (not_le.mpr h2)⟩
  have h2a : 0 ≤ w.socketRes := not_lt.mp h2
  by_cases h3 : w.setAddrRes < 0
  · rw [tun_alloc_eq3 w dev h0 h1a h2a h3]
    exact ⟨h3, by simp [closesOf], fun _ _ => by simp [closesOf]⟩
  have h3a : 0 ≤ w.setAddrRes := not_lt.mp h3
  by_cases h4 : w.setDstAddrRes < 0
  · rw [tun_alloc_eq4 w dev h0 h1a h2a h3a h4]
    exact ⟨h4, by simp [closesOf], fun _ _ => by simp [closesOf]⟩
  have h4a : 0 ≤ w.setDstAddrRes := not_lt.mp h4
  by_cases h5 : w.getFlagsRes < 0
  · rw [tun_alloc_eq5 w dev h0 h1a h2a h3a h4a h5]
    exact ⟨h5, by simp [closesOf], fun _ _ => by simp [closesOf]⟩
  have h5a : 0 ≤ w.getFlagsRes := not_lt.mp h5
  by_cases h6 : w.setFlagsRes < 0
  · rw [tun_alloc_eq6 w dev h0 h1a h2a h3a h4a h5a h6]
    exact ⟨h6, by simp [closesOf], fun _ _ => by simp [closesOf]⟩
  have h6a : 0 ≤ w.setFlagsRes := not_lt.mp h6
  by_cases h7 : w.addRouteRes < 0
  · rw [tun_alloc_eq7 w dev h0 h1a h2a h3a h4a h5a h6a h7]
    exact ⟨h7, by simp [closesOf], fun _ _ => by simp [closesOf]⟩
  have h7a : 0 ≤ w.addRouteRes := not_lt.mp h7
  exact absurd ⟨h1a, h2a, h3a, h4a, h5a, h6a, h7a⟩ hf

/-- Claim C1 witness: SIOCGIFFLAGS fails; fd 3 and socket 4 are both
closed and the return value is negative. -/
theorem tun_alloc_no_leak_on_failure_witness :
    (tun_alloc ⟨3, 0, 4, 0, 0, -13, 0, 0, 0⟩ (fun _ => 0)).1 < 0 ∧
    (3 : Int) ∈ closesOf (tun_alloc ⟨3, 0, 4, 0, 0, -13, 0, 0, 0⟩ (fun _ => 0)).2 ∧
    (4 : Int) ∈ closesOf (tun_alloc ⟨3, 0, 4, 0, 0, -13, 0, 0, 0⟩ (fun _ => 0)).2 := by
  have h := tun_alloc_no_leak_on_failure ⟨3, 0, 4, 0, 0, -13, 0, 0, 0⟩
    (fun _ => 0) (by decide) (by decide)
  exact ⟨h.1, h.2.1, h.2.2 (by decide) (by decide)⟩

/-- Claim C2: with a non-empty requested name, the `ifr_name` buffer
was just zeroed by `memset`, so the `strscpy_pad` copy loop — whose
guard reads the destination — exits at once: it copies zero bytes
(returns 0) and the name field submitted with TUNSETIFF is all
zeros. -/
theorem tun_alloc_requested_name_discarded (w : KernelWorld)
    (dev : Nat → Nat) (hopen : 0 ≤ w.openRes) (hdev : dev 0 ≠ 0) :
    (strscpy_pad (fun _ => 0) dev IFNAMSIZ).2 = 0 ∧
    ∃ nm, tunNameOf (tun_alloc w dev).2 = some nm ∧ ∀ i, nm i = 0 := by
  have hz : nzRun (fun _ => 0) 0 IFNAMSIZ = 0 := rfl
  constructor
  · rw [strscpy_pad_snd, hz]
  · obtain ⟨rest, hr⟩ := tun_alloc_trace_head w dev hopen
    refine ⟨ifrNameOf dev, by rw [hr]; rfl, ?_⟩
    intro i
    rw [ifrNameOf, if_pos hdev, strscpy_pad_fst, hz]
    simp

/-- Claim C2 witness: requested name bytes 116 117 110 55 ("tun7");
zero bytes are copied and the submitted name is all zeros. -/
theorem tun_alloc_requested_name_discarded_witness :
    (strscpy_pad (fun _ => 0) (fun i => [116, 117, 110, 55, 0].getD i 0)
      IFNAMSIZ).2 = 0 ∧
    ∃ nm, tunNameOf (tun_alloc ⟨3, 0, 4, 0, 0, 0, 0, 0, 0⟩
      (fun i => [116, 117, 110, 55, 0].getD i 0)).2 = some nm ∧
      ∀ i, nm i = 0 :=
  tun_alloc_requested_name_discarded ⟨3, 0, 4, 0, 0, 0, 0, 0, 0⟩
    (fun i => [116, 117, 110, 55, 0].getD i 0) (by decide) (by decide)

/-- Claim C3 counterexample: the `ifr_flags` submitted with TUNSETIFF
equal `IFF_TUN` alone; the claimed value `IFF_TUN ||| IFF_NO_PI`
differs, so the no-packet-info bit is not requested. -/
theorem tun_alloc_flags_missing_no_pi_cex :
    tunFlagsOf (tun_alloc ⟨3, 0, 4, 0, 0, 0, 0, 0, 0⟩ (fun _ => 0)).2 =
      some IFF_TUN ∧
    IFF_TUN ≠ IFF_TUN ||| IFF_NO_PI := by
  exact ⟨rfl, by decide⟩

/-- Claim C3 (amended): the TUNSETIFF request carries mode flags equal
to `IFF_TUN` only — the tunnel-mode bit without the no-packet-info
bit. -/
theorem tun_alloc_tunsetiff_flags (w : KernelWorld) (dev : Nat → Nat)
    (h : 0 ≤ w.openRes) :
    tunFlagsOf (tun_alloc w dev).2 = some IFF_TUN := by
  obtain ⟨rest, hr⟩ := tun_alloc_trace_head w dev h
  rw [hr]
  rfl

/-- Claim C3 (amended) witness. -/
theorem tun_alloc_tunsetiff_flags_witness :
    tunFlagsOf (tun_alloc ⟨3, 0, 4, 0, 0, 0, 0, 0, 0⟩ (fun _ => 0)).2 =
      some IFF_TUN :=
  tun_alloc_tunsetiff_flags ⟨3, 0, 4, 0, 0, 0, 0, 0, 0⟩ (fun _ => 0)
    (by decide)

/-- Claim C4 (code bug, evaluated): on destination bytes `[0, 7]` with
source byte 97 and capacity 2 the code copies nothing (returns 0),
leaves byte 1 equal to 7 (no zero-padding, no NUL-termination), while
the §4.1 contract demands `[97, 0]` and return value 1. -/
theorem strscpy_pad_contract_violation :
    (strscpy_pad (fun i => [0, 7].getD i 0) (fun i => [97, 0].getD i 0) 2).2
      = 0 ∧
    (strscpy_pad (fun i => [0, 7].getD i 0) (fun i => [97, 0].getD i 0) 2).1 0
      = 0 ∧
    (strscpy_pad (fun i => [0, 7].getD i 0) (fun i => [97, 0].getD i 0) 2).1 1
      = 7 ∧
    strscpy_padSpec [97] 2 = ([97, 0], 1) :=
  ⟨rfl, rfl, rfl, rfl⟩

/-- Claim C5 counterexample: when SIOCSIFADDR fails (a step at which
both the device fd 3 and the socket 4 are open), the handles are closed
device-first — `[3, 4]`, not the claimed reverse acquisition order
`[4, 3]`. -/
theorem tun_alloc_close_order_cex :
    closesOf (tun_alloc ⟨3, 0, 4, -13, 0, 0, 0, 0, 0⟩ (fun _ => 0)).2 =
      [3, 4] ∧
    ([3, 4] : List Int) ≠ [4, 3] := by
  exact ⟨rfl, by decide⟩

/-- Claim C5 (amended): on a failure of SIOCSIFADDR, SIOCSIFDSTADDR,
SIOCGIFFLAGS or SIOCSIFFLAGS both handles are closed but in acquisition
order — device fd first, then the socket; only a SIOCADDRT failure
releases them in reverse acquisition order (socket first). -/
theorem tun_alloc_close_order_amended (w : KernelWorld) (dev : Nat → Nat)
    (h0 : 0 ≤ w.openRes) (h1 : 0 ≤ w.tunsetiffRes) (h2 : 0 ≤ w.socketRes) :
    (w.setAddrRes < 0 →
      closesOf (tun_alloc w dev).2 = [w.openRes, w.socketRes]) ∧
    (0 ≤ w.setAddrRes → w.setDstAddrRes < 0 →
      closesOf (tun_alloc w dev).2 = [w.openRes, w.socketRes]) ∧
    (0 ≤ w.setAddrRes → 0 ≤ w.setDstAddrRes → w.getFlagsRes < 0 →
      closesOf (tun_alloc w dev).2 = [w.openRes, w.socketRes]) ∧
    (0 ≤ w.setAddrRes → 0 ≤ w.setDstAddrRes → 0 ≤ w.getFlagsRes →
      w.setFlagsRes < 0 →
      closesOf (tun_alloc w dev).2 = [w.openRes, w.socketRes]) ∧
    (0 ≤ w.setAddrRes → 0 ≤ w.setDstAddrRes → 0 ≤ w.getFlagsRes →
      0 ≤ w.setFlagsRes → w.addRouteRes < 0 →
      closesOf (tun_alloc w dev).2 = [w.socketRes, w.openRes]) := by
  refine ⟨?_, ?_, ?_, ?_, ?_⟩
  · intro h3
    rw [tun_alloc_eq3 w dev h0 h1 h2 h3]
    simp [closesOf]
  · intro h3 h4
    rw [tun_alloc_eq4 w dev h0 h1 h2 h3 h4]
    simp [closesOf]
  · intro h3 h4 h5
    rw [tun_alloc_eq5 w dev h0 h1 h2 h3 h4 h5]
    simp [closesOf]
  · intro h3 h4 h5 h6
    rw [tun_alloc_eq6 w dev h0 h1 h2 h3 h4 h5 h6]
    simp [closesOf]
  · intro h3 h4 h5 h6 h7
    rw [tun_alloc_eq7 w dev h0 h1 h2 h3 h4 h5 h6 h7]
    simp [closesOf]

/-- Claim C5 (amended) witness: a SIOCSIFADDR failure closes `[3, 4]`
(device first), a SIOCADDRT failure closes `[4, 3]` (socket first). -/
theorem tun_alloc_close_order_amended_witness :
    closesOf (tun_alloc ⟨3, 0, 4, -13, 0, 0, 0, 0, 0⟩ (fun _ => 0)).2 =
      [3, 4] ∧
    closesOf (tun_alloc ⟨3, 0, 4, 0, 0, 0, 0, 0, -13⟩ (fun _ => 0)).2 =
      [4, 3] := by
  have hA := tun_alloc_close_order_amended ⟨3, 0, 4, -13, 0, 0, 0, 0, 0⟩
    (fun _ => 0) (by decide) (by decide) (by decide)
  have hB := tun_alloc_close_order_amended ⟨3, 0, 4, 0, 0, 0, 0, 0, -13⟩
    (fun _ => 0) (by decide) (by decide) (by decide)
  exact ⟨hA.1 (by decide),
    hB.2.2.2.2 (by decide) (by decide) (by decide) (by decide) (by decide)⟩

/-- Claim C6: the kernel operations are issued in the fixed linear
order open, TUNSETIFF, socket, SIOCSIFADDR, SIOCSIFDSTADDR,
SIOCGIFFLAGS, SIOCSIFFLAGS, SIOCADDRT; the operations actually issued
are exactly the prefix reaching one step past the last success — the
first failure aborts all remaining steps, with no retries. -/
theorem tun_alloc_linear_first_failure_aborts (w : KernelWorld)
    (dev : Nat → Nat) :
    opsOf (tun_alloc w dev).2 = canonicalOps.take (min (w.numOk + 1) 8) := by
  by_cases h0 : w.openRes < 0
  · rw [tun_alloc_eq0 w dev h0, numOk0 w h0]
    simp [opsOf, Event.tag, canonicalOps]
  have h0a : 0 ≤ w.openRes := not_lt.mp h0
  by_cases h1 : w.tunsetiffRes < 0
  · rw [tun_alloc_eq1 w dev h0a h1, numOk1 w h0a h1]
    simp [opsOf, Event.tag, canonicalOps]
  have h1a : 0 ≤ w.tunsetiffRes := not_lt.mp h1
  by_cases h2 : w.socketRes < 0
  · rw [tun_alloc_eq2 w dev h0a h1a h2, numOk2 w h0a h1a h2]
    simp [opsOf, Event.tag, canonicalOps]
  have h2a : 0 ≤ w.socketRes := not_lt.mp h2
  by_cases h3 : w.setAddrRes < 0
  · rw [tun_alloc_eq3 w dev h0a h1a h2a h3, numOk3 w h0a h1a h2a h3]
    simp [opsOf, Event.tag, canonicalOps]
  have h3a : 0 ≤ w.setAddrRes := not_lt.mp h3
  by_cases h4 : w.setDstAddrRes < 0
  · rw [tun_alloc_eq4 w dev h0a h1a h2a h3a h4, numOk4 w h0a h1a h2a h3a h4]
    simp [opsOf, Event.tag, canonicalOps]
  have h4a : 0 ≤ w.setDstAddrRes := not_lt.mp h4
  by_cases h5 : w.getFlagsRes < 0
  · rw [tun_alloc_eq5 w dev h0a h1a h2a h3a h4a h5,
      numOk5 w h0a h1a h2a h3a h4a h5]
    simp [opsOf, Event.tag, canonicalOps]
  have h5a : 0 ≤ w.getFlagsRes := not_lt.mp h5
  by_cases h6 : w.setFlagsRes < 0
  · rw [tun_alloc_eq6 w dev h0a h1a h2a h3a h4a h5a h6,
      numOk6 w h0a h1a h2a h3a h4a h5a h6]
    simp [opsOf, Event.tag, canonicalOps]
  have h6a : 0 ≤ w.setFlagsRes := not_lt.mp h6
  by_cases h7 : w.addRouteRes < 0
  · rw [tun_alloc_eq7 w dev h0a h1a h2a h3a h4a h5a h6a h7,
      numOk7 w h0a h1a h2a h3a h4a h5a h6a h7]
    simp [opsOf, Event.tag, canonicalOps]
  have h7a : 0 ≤ w.addRouteRes := not_lt.mp h7
  rw [tun_alloc_eq8 w dev h0a h1a h2a h3a h4a h5a h6a h7a,
    numOk8 w h0a h1a h2a h3a h4a h5a h6a h7a]
  simp [opsOf, Event.tag, canonicalOps]

/-- Claim C7: when every step succeeds, the control socket is closed
(and is the only close), the return value is the non-negative device
fd from OPEN_DEVICE, and the device fd is never closed. -/
theorem tun_alloc_success_keeps_device (w : KernelWorld) (dev : Nat → Nat)
    (h0 : 0 ≤ w.openRes) (h1 : 0 ≤ w.tunsetiffRes) (h2 : 0 ≤ w.socketRes)
    (h3 : 0 ≤ w.setAddrRes) (h4 : 0 ≤ w.setDstAddrRes)
    (h5 : 0 ≤ w.getFlagsRes) (h6 : 0 ≤ w.setFlagsRes)
    (h7 : 0 ≤ w.addRouteRes) (hne : w.openRes ≠ w.socketRes) :
    (tun_alloc w dev).1 = w.openRes ∧ 0 ≤ (tun_alloc w dev).1 ∧
    closesOf (tun_alloc w dev).2 = [w.socketRes] ∧
    w.openRes ∉ closesOf (tun_alloc w dev).2 := by
  rw [tun_alloc_eq8 w dev h0 h1 h2 h3 h4 h5 h6 h7]
  refine ⟨rfl, h0, ?_, ?_⟩
  · simp [closesOf]
  · simp [closesOf, hne]

/-- Claim C7 witness: fd 3, socket 4, all steps succeed. -/
theorem tun_alloc_success_keeps_device_witness :
    (tun_alloc ⟨3, 0, 4, 0, 0, 0, 67, 0, 0⟩ (fun _ => 0)).1 = 3 ∧
    0 ≤ (tun_alloc ⟨3, 0, 4, 0, 0, 0, 67, 0, 0⟩ (fun _ => 0)).1 ∧
    closesOf (tun_alloc ⟨3, 0, 4, 0, 0, 0, 67, 0, 0⟩ (fun _ => 0)).2 = [4] ∧
    (3 : Int) ∉ closesOf (tun_alloc ⟨3, 0, 4, 0, 0, 0, 67, 0, 0⟩ (fun _ => 0)).2 :=
  tun_alloc_success_keeps_device ⟨3, 0, 4, 0, 0, 0, 67, 0, 0⟩ (fun _ => 0)
    (by decide) (by decide) (by decide) (by decide) (by decide) (by decide)
    (by decide) (by decide) (by decide)

/-- Claim C8: if opening /dev/net/tun fails, `tun_alloc` returns the
fixed sentinel -1 and its trace is the failed open alone — no handle
was opened and no other kernel operation was issued. -/
theorem tun_alloc_open_fail_sentinel (w : KernelWorld) (dev : Nat → Nat)
    (h : w.openRes < 0) :
    tun_alloc w dev = (-1, [Event.openDev]) :=
  tun_alloc_eq0 w dev h

/-- Claim C8 witness: `open` reports error -5; the function still
returns -1 and the trace is just the open attempt. -/
theorem tun_alloc_open_fail_sentinel_witness :
    tun_alloc ⟨-5, 0, 0, 0, 0, 0, 0, 0, 0⟩ (fun _ => 0) =
      (-1, [Event.openDev]) :=
  tun_alloc_open_fail_sentinel ⟨-5, 0, 0, 0, 0, 0, 0, 0, 0⟩ (fun _ => 0)
    (by decide)

/-- Claim C9: `strscpy_pad` never stores at or past offset `size`:
every destination byte at offset `size` or beyond is unchanged. -/
theorem strscpy_pad_no_write_past_capacity (mem src : Nat → Nat)
    (size i : Nat) (h : size ≤ i) :
    (strscpy_pad mem src size).1 i = mem i := by
  have hle := nzRun_le mem size 0
  rw [strscpy_pad_fst, if_neg (by omega)]

/-- Claim C9 witness: capacity 2, offset 5 is untouched. -/
theorem strscpy_pad_no_write_past_capacity_witness :
    (2 : Nat) ≤ 5 ∧
    (strscpy_pad (fun i => [7, 7].getD i 0) (fun i => [97, 98].getD i 0)
      2).1 5 = (fun i => ([7, 7].getD i 0 : Nat)) 5 :=
  ⟨by decide, strscpy_pad_no_write_past_capacity _ _ 2 5 (by decide)⟩

/-- Claim C10: the only destination bytes `strscpy_pad` modifies are
the leading run of originally non-zero bytes (capped at `size`), each
overwritten with the corresponding source byte; every byte from the end
of that run on is unchanged — in particular the function performs no
zero-padding and no NUL-termination — and the returned count is the
run length. -/
theorem strscpy_pad_frame_effect (mem src : Nat → Nat) (size : Nat) :
    nzRun mem 0 size ≤ size ∧
    (∀ j, j < nzRun mem 0 size → mem j ≠ 0) ∧
    (nzRun mem 0 size < size → mem (nzRun mem 0 size) = 0) ∧
    (∀ i, i < nzRun mem 0 size → (strscpy_pad mem src size).1 i = src i) ∧
    (∀ i, nzRun mem 0 size ≤ i → (strscpy_pad mem src size).1 i = mem i) ∧
    (strscpy_pad mem src size).2 = nzRun mem 0 size := by
  obtain ⟨hz, hend⟩ := nzRun_spec mem size 0
  refine ⟨nzRun_le mem size 0, ?_, ?_, ?_, ?_, strscpy_pad_snd mem src size⟩
  · intro j hj
    simpa using hz j hj
  · intro hlt
    simpa using hend hlt
  · intro i hi
    rw [strscpy_pad_fst, if_pos hi]
  · intro i hi
    rw [strscpy_pad_fst, if_neg (by omega)]

/-- Claim C10 witness: destination `[7, 7, 0, 9]`, source
`[97, 98, 99, 100]`, capacity 4; the run has length 2, byte 1 receives
the source byte, bytes 2 and 3 are untouched (no padding), and the
return value is 2. -/
theorem strscpy_pad_frame_effect_witness :
    (strscpy_pad (fun i => [7, 7, 0, 9].getD i 0)
      (fun i => [97, 98, 99, 100].getD i 0) 4).1 1 =
      (fun i => ([97, 98, 99, 100].getD i 0 : Nat)) 1 ∧
    (strscpy_pad (fun i => [7, 7, 0, 9].getD i 0)
      (fun i => [97, 98, 99, 100].getD i 0) 4).1 3 =
      (fun i => ([7, 7, 0, 9].getD i 0 : Nat)) 3 ∧
    (strscpy_pad (fun i => [7, 7, 0, 9].getD i 0)
      (fun i => [97, 98, 99, 100].getD i 0) 4).2 =
      nzRun (fun i => [7, 7, 0, 9].getD i 0) 0 4 := by
  have h := strscpy_pad_frame_effect (fun i => [7, 7, 0, 9].getD i 0)
    (fun i => [97, 98, 99, 100].getD i 0) 4
  exact ⟨h.2.2.2.1 1 (by decide), h.2.2.2.2.1 3 (by decide), h.2.2.2.2.2⟩
